import Mathlib

/-!
Verification of `scripts/generate_icons.py` from the hiit-timer repository.

The script is embedded shallowly:
* the filesystem is a map from path strings to file contents plus the list of
  directories created so far;
* the nondeterministic parts of the environment (whether PIL imported at
  startup, whether the one remedial `pip3 install Pillow` makes the re-import
  succeed, whether the truetype font or the default font load, and what
  bounding box `draw.textbbox` reports for the label under a given font) are
  collected in an `Env` record;
* `create_icon` and `main` become pure state-passing functions that also
  return the diagnostics printed and (for `main`) the list of `create_icon`
  invocations, the process exit code and the uncaught exception (if any);
* Python name resolution is tracked where it matters: the module-level
  PIL import binds `Image`/`ImageDraw`/`ImageFont` at module scope, while
  the re-import inside `main` binds only `main`-locals, so after a successful
  remedial install the guard flag `PIL_AVAILABLE` is true yet `Image.new`
  inside `create_icon` raises `NameError`, which no handler catches.
-/

namespace GenerateIcons

/-- A font value as observed by the script: either the truetype font loaded at
a given point size (`ImageFont.truetype(..., font_size)`), or the library's
built-in default font (`ImageFont.load_default()`). -/
inductive Font where
  | truetype (fontSize : Nat)
  | builtin
deriving DecidableEq

/-- The bounding box returned by `draw.textbbox((0, 0), text, font=font)`:
`(left, top, right, bottom)` pixel coordinates. -/
structure BBox where
  left : Int
  top : Int
  right : Int
  bottom : Int
deriving DecidableEq

/-- Content of a file written by the script: either the PNG that
`img.save(output_path, 'PNG')` persists — recorded by its pixel dimensions,
background color, drawn label, label color, label offset and font — or a plain
text file written with `f.write(...)`. -/
inductive FileData where
  | png (width height : Nat) (background label labelColor : String)
      (labelX labelY : Int) (font : Option Font)
  | text (content : String)
deriving DecidableEq

/-- The filesystem state: file contents by path, and the set (as a list) of
directories created by `os.makedirs`. -/
structure FS where
  files : String → Option FileData
  dirs : List String

/-- The parts of the execution environment the script cannot control:
whether `from PIL import ...` succeeded at module load (`PIL_AVAILABLE`),
whether the re-import after `pip3 install Pillow` succeeds, whether
`ImageFont.truetype` succeeds, whether `ImageFont.load_default` succeeds,
and the bounding box `draw.textbbox` reports for the label `"HT"` under a
given font. -/
structure Env where
  pilAvailable : Bool
  installSucceeds : Bool
  truetypeOk : Bool
  defaultOk : Bool
  bbox : Font → BBox

/-- Characters strictly before the last `/` of the list (empty when there is
no `/`). -/
def dirnameAux : List Char → List Char
  | [] => []
  | c :: cs => if cs.contains '/' then c :: dirnameAux cs else []

/-- `os.path.dirname`: everything strictly before the last `/` separator
(empty when there is none). -/
def dirname (p : String) : String := String.mk (dirnameAux p.data)

/-- Characters strictly after the last `/` of the list (the whole list when
there is no `/`). -/
def basenameAux : List Char → List Char
  | [] => []
  | c :: cs => if c = '/' ∨ cs.contains '/' then basenameAux cs else c :: cs

/-- `os.path.basename`: everything strictly after the last `/` separator. -/
def basename (p : String) : String := String.mk (basenameAux p.data)

/-- `os.makedirs(d, exist_ok=True)`: record the directory as created; a
second call with the same directory is a no-op. -/
def makedirs (fs : FS) (d : String) : FS :=
  if d ∈ fs.dirs then fs else ⟨fs.files, d :: fs.dirs⟩

/-- Writing a file in truncating mode (`open(path, 'w')` / `img.save`): the
new content fully replaces whatever was stored at the path. -/
def writeFile (fs : FS) (p : String) (data : FileData) : FS :=
  ⟨fun q => if q = p then some data else fs.files q, fs.dirs⟩

/-- The font-selection chain of `create_icon`: try
`ImageFont.truetype("/System/Library/Fonts/Arial.ttf", max(size // 6, 12))`;
on any exception try `ImageFont.load_default()`; on any exception proceed with
`font = None`. -/
def loadFont (env : Env) (size : Nat) : Option Font :=
  if env.truetypeOk then some (Font.truetype (max (size / 6) 12))
  else if env.defaultOk then some Font.builtin
  else none

/-- The label dimensions `(text_width, text_height)` computed in
`create_icon`: from the textbbox when a font is available
(`bbox[2] - bbox[0]`, `bbox[3] - bbox[1]`), otherwise the fallback
`(size // 3, size // 4)`. -/
def textDims (env : Env) (size : Nat) (font : Option Font) : Int × Int :=
  match font with
  | some f => ((env.bbox f).right - (env.bbox f).left,
               (env.bbox f).bottom - (env.bbox f).top)
  | none => (((size / 3 : Nat) : Int), ((size / 4 : Nat) : Int))

/-- `create_icon(size, output_path)`. Returns the new filesystem state and
the diagnostics printed. When `PIL_AVAILABLE` is false it prints a skip
message and returns without touching the filesystem. Otherwise it builds a
`size × size` RGB canvas with background `'#1976D2'`, selects a font via
`loadFont`, measures the label `"HT"` via `textDims`, centers it with Python
floor division `(size - dim) // 2` on each axis, draws it in white, creates
the parent directory and saves the PNG. -/
def create_icon (env : Env) (size : Nat) (output_path : String) (fs : FS) :
    FS × List String :=
  if env.pilAvailable = false then
    (fs, ["PIL not available, skipping " ++ output_path])
  else
    let font := loadFont env size
    let dims := textDims env size font
    let x := ((size : Int) - dims.1).fdiv 2
    let y := ((size : Int) - dims.2).fdiv 2
    let fs1 := makedirs fs (dirname output_path)
    let fs2 := writeFile fs1 output_path
      (FileData.png size size "#1976D2" "HT" "white" x y font)
    (fs2, ["Created " ++ output_path])

/-- The literal table of ten `(size, path)` entries from `main`. -/
def icons : List (Nat × String) :=
  [ (72, "app/src/main/res/mipmap-hdpi/ic_launcher.png"),
    (72, "app/src/main/res/mipmap-hdpi/ic_launcher_round.png"),
    (48, "app/src/main/res/mipmap-mdpi/ic_launcher.png"),
    (48, "app/src/main/res/mipmap-mdpi/ic_launcher_round.png"),
    (96, "app/src/main/res/mipmap-xhdpi/ic_launcher.png"),
    (96, "app/src/main/res/mipmap-xhdpi/ic_launcher_round.png"),
    (144, "app/src/main/res/mipmap-xxhdpi/ic_launcher.png"),
    (144, "app/src/main/res/mipmap-xxhdpi/ic_launcher_round.png"),
    (192, "app/src/main/res/mipmap-xxxhdpi/ic_launcher.png"),
    (192, "app/src/main/res/mipmap-xxxhdpi/ic_launcher_round.png") ]

/-- The exact content written for one placeholder file:
`f.write("# Placeholder icon file\n")`. -/
def placeholderContent : String := "# Placeholder icon file\n"

/-- One iteration of the degraded loop in `main`: create the parent directory
and write the placeholder text file at the entry's path. -/
def writePlaceholder (fs : FS) (entry : Nat × String) : FS :=
  writeFile (makedirs fs (dirname entry.2)) entry.2
    (FileData.text placeholderContent)

/-- One `create_icon` call as actually executed in the loop of `main`.
`flag` is the value of the global `PIL_AVAILABLE` at call time.
`env.pilAvailable` also records whether the module-level import bound the
names `Image`, `ImageDraw`, `ImageFont`: a Python import statement is an
assignment in the current scope, so the re-import inside `main` binds only
locals of `main` and can never bind the module-level names `create_icon`
resolves. If the guard `if not PIL_AVAILABLE` passes but the module-level
names are unbound, evaluating `Image.new` raises `NameError` before any
filesystem effect; the loop has no handler, so the exception propagates. -/
def create_icon_call (env : Env) (flag : Bool) (size : Nat) (path : String)
    (fs : FS) : Except String (FS × List String) :=
  if flag = false then
    Except.ok (fs, ["PIL not available, skipping " ++ path])
  else if env.pilAvailable = false then
    Except.error "NameError: name Image is not defined"
  else
    Except.ok (create_icon env size path fs)

/-- The generation loop of `main` with exception propagation: each entry is
passed to `create_icon` (with `PIL_AVAILABLE` globally true at loop time);
an uncaught exception halts the loop, recording the entry whose call raised
it. Returns the accumulated `(filesystem, invocations, log)` and the uncaught
exception, if any. -/
def iconLoopExec (env : Env) :
    List (Nat × String) → FS × List (Nat × String) × List String →
      (FS × List (Nat × String) × List String) × Option String
  | [], acc => (acc, none)
  | e :: t, acc =>
    match create_icon_call env true e.1 e.2 acc.1 with
    | Except.error msg => ((acc.1, acc.2.1 ++ [e], acc.2.2), some msg)
    | Except.ok r => iconLoopExec env t (r.1, acc.2.1 ++ [e], acc.2.2 ++ r.2)

/-- The observable outcome of one run of `main()`: final filesystem, the
`create_icon` invocations in order, the console log, the process exit code,
and the uncaught exception that terminated the process, if any (`none` means
`main` returned normally). -/
structure RunResult where
  fs : FS
  calls : List (Nat × String)
  log : List String
  exitCode : Nat
  uncaught : Option String

/-- `main()`. If `PIL_AVAILABLE` is true at startup the table is iterated
with `create_icon`. Otherwise `pip3 install Pillow` is attempted once and
the PIL import retried inside `main`: on success the global `PIL_AVAILABLE`
becomes
true — but the re-imported names are locals of `main`, the module-level
`Image`/`ImageDraw`/`ImageFont` stay unbound, and the loop runs with the
guard flag true while name resolution in `create_icon` fails; on failure
every entry gets a placeholder text file and `main` returns. A run that ends
in an uncaught exception makes the interpreter print a traceback and exit
with status 1; otherwise the process exits with status 0. -/
def main_run (env : Env) (fs : FS) : RunResult :=
  if env.pilAvailable = true then
    let r := iconLoopExec env icons (fs, [], [])
    ⟨r.1.1, r.1.2.1, r.1.2.2, if r.2.isSome then 1 else 0, r.2⟩
  else if env.installSucceeds = true then
    let r := iconLoopExec env icons
      (fs, [], ["PIL (Pillow) is not available. Installing..."])
    ⟨r.1.1, r.1.2.1, r.1.2.2, if r.2.isSome then 1 else 0, r.2⟩
  else
    let fs2 := icons.foldl writePlaceholder fs
    ⟨fs2, [],
      ["PIL (Pillow) is not available. Installing...",
       "Could not install PIL. Creating empty placeholder files."], 0, none⟩

/-- The empty filesystem, used for concrete witnesses. -/
def emptyFS : FS := ⟨fun _ => none, []⟩

/-- A concrete environment in which PIL is available. -/
def envAvail : Env := ⟨true, false, true, true, fun _ => ⟨0, 2, 20, 14⟩⟩

/-- A concrete environment in which PIL is unavailable and the remedial
install fails. -/
def envNoPil : Env := ⟨false, false, false, false, fun _ => ⟨0, 0, 0, 0⟩⟩

/-- A concrete environment in which PIL is unavailable at startup but the
remedial install succeeds. -/
def envRemedied : Env := ⟨false, true, true, true, fun _ => ⟨0, 2, 20, 14⟩⟩

/-- A concrete environment in which PIL is available but both font loads
fail. -/
def envNoFont : Env := ⟨true, false, false, false, fun _ => ⟨0, 0, 0, 0⟩⟩

/-- A concrete filesystem with arbitrary prior content at every path, used to
witness unconditional overwriting. -/
def fullFS : FS := ⟨fun _ => some (FileData.text "stale content"), []⟩

section Lemmas

lemma makedirs_files (fs : FS) (d : String) : (makedirs fs d).files = fs.files := by
  unfold makedirs; split <;> rfl

lemma makedirs_mem (fs : FS) (d : String) : d ∈ (makedirs fs d).dirs := by
  unfold makedirs; split
  · assumption
  · exact List.mem_cons_self _ _

lemma makedirs_dirs_subset (fs : FS) (d : String) :
    fs.dirs ⊆ (makedirs fs d).dirs := by
  unfold makedirs; split
  · exact fun x hx => hx
  · exact fun x hx => List.mem_cons_of_mem _ hx

lemma writeFile_self (fs : FS) (p : String) (d : FileData) :
    (writeFile fs p d).files p = some d := by
  simp [writeFile]

lemma writeFile_other (fs : FS) (p q : String) (d : FileData) (h : q ≠ p) :
    (writeFile fs p d).files q = fs.files q := by
  simp [writeFile, h]

lemma writeFile_dirs (fs : FS) (p : String) (d : FileData) :
    (writeFile fs p d).dirs = fs.dirs := rfl

lemma writePlaceholder_self (fs : FS) (e : Nat × String) :
    (writePlaceholder fs e).files e.2 = some (FileData.text placeholderContent) :=
  writeFile_self _ _ _

lemma writePlaceholder_other (fs : FS) (e : Nat × String) (q : String)
    (h : q ≠ e.2) : (writePlaceholder fs e).files q = fs.files q := by
  unfold writePlaceholder
  rw [writeFile_other _ _ _ _ h, makedirs_files]

lemma writePlaceholder_dirs_subset (fs : FS) (e : Nat × String) :
    fs.dirs ⊆ (writePlaceholder fs e).dirs := by
  unfold writePlaceholder
  rw [writeFile_dirs]
  exact makedirs_dirs_subset _ _

lemma writePlaceholder_dir_mem (fs : FS) (e : Nat × String) :
    dirname e.2 ∈ (writePlaceholder fs e).dirs := by
  unfold writePlaceholder
  rw [writeFile_dirs]
  exact makedirs_mem _ _

lemma foldl_wp_not_mem (l : List (Nat × String)) :
    ∀ (fs : FS) (p : String), p ∉ l.map Prod.snd →
      (l.foldl writePlaceholder fs).files p = fs.files p := by
  induction l with
  | nil => intro fs p _; rfl
  | cons e t ih =>
      intro fs p hp
      simp only [List.map_cons, List.mem_cons, not_or] at hp
      simp only [List.foldl_cons]
      rw [ih _ _ hp.2, writePlaceholder_other fs e p hp.1]

lemma foldl_wp_mem (l : List (Nat × String)) :
    ∀ (fs : FS) (p : String), p ∈ l.map Prod.snd →
      (l.foldl writePlaceholder fs).files p =
        some (FileData.text placeholderContent) := by
  induction l with
  | nil => intro fs p h; simp at h
  | cons e t ih =>
      intro fs p hp
      simp only [List.foldl_cons]
      by_cases hm : p ∈ t.map Prod.snd
      · exact ih _ _ hm
      · have hpe : p = e.2 := by
          simp only [List.map_cons, List.mem_cons] at hp
          tauto
        rw [foldl_wp_not_mem t _ _ hm, hpe, writePlaceholder_self]

lemma foldl_wp_dirs_subset (l : List (Nat × String)) :
    ∀ fs : FS, fs.dirs ⊆ (l.foldl writePlaceholder fs).dirs := by
  induction l with
  | nil => intro fs; exact fun x hx => hx
  | cons e t ih =>
      intro fs
      simp only [List.foldl_cons]
      exact fun x hx => ih _ (writePlaceholder_dirs_subset fs e hx)

lemma foldl_wp_dir_mem (l : List (Nat × String)) :
    ∀ (fs : FS) (e : Nat × String), e ∈ l →
      dirname e.2 ∈ (l.foldl writePlaceholder fs).dirs := by
  induction l with
  | nil => intro fs e h; simp at h
  | cons a t ih =>
      intro fs e he
      simp only [List.foldl_cons]
      rcases List.mem_cons.mp he with h | h
      · subst h
        exact foldl_wp_dirs_subset t _ (writePlaceholder_dir_mem fs e)
      · exact ih _ _ h

lemma iconLoopExec_ok (env : Env) (h : env.pilAvailable = true)
    (l : List (Nat × String)) :
    ∀ acc, (iconLoopExec env l acc).1.2.1 = acc.2.1 ++ l ∧
      (iconLoopExec env l acc).2 = none := by
  induction l with
  | nil => intro acc; exact ⟨(List.append_nil _).symm, rfl⟩
  | cons e t ih =>
      intro acc
      have hc : create_icon_call env true e.1 e.2 acc.1 =
          Except.ok (create_icon env e.1 e.2 acc.1) := by
        simp [create_icon_call, h]
      simp only [iconLoopExec, hc]
      refine ⟨?_, (ih _).2⟩
      rw [(ih _).1]
      simp

lemma create_icon_avail (env : Env) (size : Nat) (path : String) (fs : FS)
    (h : env.pilAvailable = true) :
    create_icon env size path fs =
      (writeFile (makedirs fs (dirname path)) path
        (FileData.png size size "#1976D2" "HT" "white"
          (((size : Int) - (textDims env size (loadFont env size)).1).fdiv 2)
          (((size : Int) - (textDims env size (loadFont env size)).2).fdiv 2)
          (loadFont env size)),
       ["Created " ++ path]) := by
  simp [create_icon, h]

lemma main_run_avail (env : Env) (fs : FS) (h : env.pilAvailable = true) :
    main_run env fs =
      ⟨(iconLoopExec env icons (fs, [], [])).1.1,
       (iconLoopExec env icons (fs, [], [])).1.2.1,
       (iconLoopExec env icons (fs, [], [])).1.2.2,
       if (iconLoopExec env icons (fs, [], [])).2.isSome then 1 else 0,
       (iconLoopExec env icons (fs, [], [])).2⟩ := by
  unfold main_run
  rw [if_pos h]

lemma main_run_degraded (env : Env) (fs : FS) (h1 : env.pilAvailable = false)
    (h2 : env.installSucceeds = false) :
    main_run env fs =
      ⟨icons.foldl writePlaceholder fs, [],
       ["PIL (Pillow) is not available. Installing...",
        "Could not install PIL. Creating empty placeholder files."], 0,
       none⟩ := by
  unfold main_run
  rw [if_neg (by simp [h1]), if_neg (by simp [h2])]

end Lemmas

/-- C1: code bug in the source. At the failing input — PIL unavailable at
module load, remedial install and in-main re-import both succeeding — the
re-import binds `Image`/`ImageDraw`/`ImageFont` only as locals of `main`, so
the first `create_icon` call passes its `PIL_AVAILABLE` guard and then raises
an uncaught `NameError` at `Image.new`: the batch halts after the first table
entry with nothing written, contradicting the claim that `create_icon` runs
for every one of the ten entries and the batch is never halted. -/
theorem c1_remediated_batch_halts :
    (main_run envRemedied emptyFS).calls =
      [(72, "app/src/main/res/mipmap-hdpi/ic_launcher.png")] ∧
    (main_run envRemedied emptyFS).calls ≠ icons ∧
    (main_run envRemedied emptyFS).uncaught =
      some "NameError: name Image is not defined" ∧
    (∀ p ∈ icons.map Prod.snd,
      (main_run envRemedied emptyFS).fs.files p = none) := by
  exact ⟨rfl, by decide, rfl, by decide⟩

/-- C2: code bug in the source. On the absent-with-successful-remediation
path `main` raises an uncaught `NameError` (module-global `Image` is never
bound) and the process exits with status 1 even though all filesystem I/O
succeeds — contradicting the claim that every execution of `main` returns
normally with exit status zero. On the other two paths (capability present;
absent with failed remediation) the claimed behavior does hold. -/
theorem c2_remediated_nonzero_exit :
    (main_run envRemedied emptyFS).exitCode = 1 ∧
    (main_run envRemedied emptyFS).uncaught =
      some "NameError: name Image is not defined" ∧
    (main_run envAvail emptyFS).exitCode = 0 ∧
    (main_run envAvail emptyFS).uncaught = none ∧
    (main_run envNoPil emptyFS).exitCode = 0 ∧
    (main_run envNoPil emptyFS).uncaught = none := by
  have h2 := (iconLoopExec_ok envAvail rfl icons (emptyFS, [], [])).2
  refine ⟨rfl, rfl, ?_, ?_, rfl, rfl⟩
  · rw [main_run_avail envAvail emptyFS rfl]
    show (if (iconLoopExec envAvail icons
        (emptyFS, [], [])).2.isSome then 1 else 0) = 0
    rw [h2]
    rfl
  · rw [main_run_avail envAvail emptyFS rfl]
    exact h2

/-- C3: when the capability is unavailable at startup and the remedial
install fails, `main` creates every entry's parent directory, writes the
placeholder text file `"# Placeholder icon file\n"` at every entry's path,
and returns without invoking `create_icon` at all. -/
theorem c3_placeholders_on_failure (env : Env) (fs : FS)
    (h1 : env.pilAvailable = false) (h2 : env.installSucceeds = false) :
    (∀ e ∈ icons,
        dirname e.2 ∈ (main_run env fs).fs.dirs ∧
        (main_run env fs).fs.files e.2 =
          some (FileData.text placeholderContent)) ∧
    (main_run env fs).calls = [] := by
  refine ⟨fun e he => ?_, ?_⟩
  · rw [main_run_degraded env fs h1 h2]
    exact ⟨foldl_wp_dir_mem icons fs e he,
           foldl_wp_mem icons fs e.2 (List.mem_map_of_mem Prod.snd he)⟩
  · rw [main_run_degraded env fs h1 h2]

theorem c3_placeholders_on_failure_witness :
    dirname "app/src/main/res/mipmap-mdpi/ic_launcher.png" ∈
        (main_run envNoPil emptyFS).fs.dirs ∧
    (main_run envNoPil emptyFS).fs.files
        "app/src/main/res/mipmap-mdpi/ic_launcher.png" =
      some (FileData.text placeholderContent) ∧
    (main_run envNoPil emptyFS).calls = [] :=
  ⟨((c3_placeholders_on_failure envNoPil emptyFS rfl rfl).1
      (48, "app/src/main/res/mipmap-mdpi/ic_launcher.png") (by decide)).1,
   ((c3_placeholders_on_failure envNoPil emptyFS rfl rfl).1
      (48, "app/src/main/res/mipmap-mdpi/ic_launcher.png") (by decide)).2,
   (c3_placeholders_on_failure envNoPil emptyFS rfl rfl).2⟩

/-- C4: when the drawing capability is available, `create_icon` writes at the
output path a PNG whose pixel dimensions are exactly `(size, size)`, with
background `#1976D2` and the label `"HT"` in white. -/
theorem c4_png_dimensions (env : Env) (size : Nat) (path : String) (fs : FS)
    (h : env.pilAvailable = true) :
    ∃ (x y : Int) (font : Option Font),
      (create_icon env size path fs).1.files path =
        some (FileData.png size size "#1976D2" "HT" "white" x y font) := by
  refine ⟨((size : Int) - (textDims env size (loadFont env size)).1).fdiv 2,
          ((size : Int) - (textDims env size (loadFont env size)).2).fdiv 2,
          loadFont env size, ?_⟩
  rw [create_icon_avail env size path fs h]
  exact writeFile_self _ _ _

theorem c4_png_dimensions_witness :
    envAvail.pilAvailable = true ∧
    ∃ (x y : Int) (font : Option Font),
      (create_icon envAvail 48 "app/src/main/res/mipmap-mdpi/ic_launcher.png"
          emptyFS).1.files "app/src/main/res/mipmap-mdpi/ic_launcher.png" =
        some (FileData.png 48 48 "#1976D2" "HT" "white" x y font) :=
  ⟨rfl, c4_png_dimensions envAvail 48
    "app/src/main/res/mipmap-mdpi/ic_launcher.png" emptyFS rfl⟩

/-- C5: when the capability is available, the label's top-left offset written
by `create_icon` is exactly `(size - d).fdiv 2` (Python floor division
`(size - d) // 2`) on each axis, where `d` is the label dimension on that
axis, and the content written at the path is identical across runs from any
two initial filesystem states. -/
theorem c5_centering (env : Env) (size : Nat) (path : String) (fs₁ fs₂ : FS)
    (h : env.pilAvailable = true) :
    (create_icon env size path fs₁).1.files path =
      some (FileData.png size size "#1976D2" "HT" "white"
        (((size : Int) - (textDims env size (loadFont env size)).1).fdiv 2)
        (((size : Int) - (textDims env size (loadFont env size)).2).fdiv 2)
        (loadFont env size)) ∧
    (create_icon env size path fs₁).1.files path =
      (create_icon env size path fs₂).1.files path := by
  constructor
  · rw [create_icon_avail env size path fs₁ h]
    exact writeFile_self _ _ _
  · rw [create_icon_avail env size path fs₁ h,
        create_icon_avail env size path fs₂ h, writeFile_self, writeFile_self]

theorem c5_centering_witness :
    (create_icon envAvail 48 "app/src/main/res/mipmap-mdpi/ic_launcher.png"
        emptyFS).1.files "app/src/main/res/mipmap-mdpi/ic_launcher.png" =
      some (FileData.png 48 48 "#1976D2" "HT" "white"
        (((48 : Int) - (textDims envAvail 48 (loadFont envAvail 48)).1).fdiv 2)
        (((48 : Int) - (textDims envAvail 48 (loadFont envAvail 48)).2).fdiv 2)
        (loadFont envAvail 48)) :=
  (c5_centering envAvail 48 "app/src/main/res/mipmap-mdpi/ic_launcher.png"
    emptyFS emptyFS rfl).1

/-- C6: the literal table (a fixed `def`, hence invariant for the program's
lifetime) has exactly ten entries; the five sizes 48, 72, 96, 144, 192 are
pairwise distinct positive numbers and each appears exactly twice, once with
the normal filename `ic_launcher.png` and once with the round variant
`ic_launcher_round.png`; the entries span the five Android density-bucket
directories, which are pairwise distinct. -/
theorem c6_table_shape :
    icons.length = 10 ∧
    [48, 72, 96, 144, 192].Pairwise (fun a b => a ≠ b) ∧
    (∀ s ∈ [48, 72, 96, 144, 192], 0 < s ∧
      (icons.filter (fun e => decide (e.1 = s))).length = 2 ∧
      (icons.filter (fun e =>
        decide (e.1 = s ∧ basename e.2 = "ic_launcher.png"))).length = 1 ∧
      (icons.filter (fun e =>
        decide (e.1 = s ∧ basename e.2 = "ic_launcher_round.png"))).length
        = 1) ∧
    icons.map (fun e => dirname e.2) =
      ["app/src/main/res/mipmap-hdpi", "app/src/main/res/mipmap-hdpi",
       "app/src/main/res/mipmap-mdpi", "app/src/main/res/mipmap-mdpi",
       "app/src/main/res/mipmap-xhdpi", "app/src/main/res/mipmap-xhdpi",
       "app/src/main/res/mipmap-xxhdpi", "app/src/main/res/mipmap-xxhdpi",
       "app/src/main/res/mipmap-xxxhdpi",
       "app/src/main/res/mipmap-xxxhdpi"] ∧
    ["app/src/main/res/mipmap-hdpi", "app/src/main/res/mipmap-mdpi",
     "app/src/main/res/mipmap-xhdpi", "app/src/main/res/mipmap-xxhdpi",
     "app/src/main/res/mipmap-xxxhdpi"].Pairwise (fun a b => a ≠ b) := by
  decide

/-- C7: `create_icon` tries the truetype font at point size
`max (size / 6) 12`; on failure it falls back to the built-in default font;
if that also fails it proceeds with no font — and in every one of the three
cases it still renders the label and saves the file. -/
theorem c7_font_fallback (env : Env) (size : Nat) (path : String) (fs : FS)
    (h : env.pilAvailable = true) :
    (env.truetypeOk = true →
        loadFont env size = some (Font.truetype (max (size / 6) 12))) ∧
    (env.truetypeOk = false → env.defaultOk = true →
        loadFont env size = some Font.builtin) ∧
    (env.truetypeOk = false → env.defaultOk = false →
        loadFont env size = none) ∧
    (∃ x y : Int, (create_icon env size path fs).1.files path =
        some (FileData.png size size "#1976D2" "HT" "white" x y
          (loadFont env size))) := by
  refine ⟨fun ht => by simp [loadFont, ht],
          fun ht hd => by simp [loadFont, ht, hd],
          fun ht hd => by simp [loadFont, ht, hd], ?_⟩
  refine ⟨((size : Int) - (textDims env size (loadFont env size)).1).fdiv 2,
          ((size : Int) - (textDims env size (loadFont env size)).2).fdiv 2,
          ?_⟩
  rw [create_icon_avail env size path fs h]
  exact writeFile_self _ _ _

theorem c7_font_fallback_witness :
    envNoFont.truetypeOk = false ∧ envNoFont.defaultOk = false ∧
    loadFont envNoFont 48 = none ∧
    (∃ x y : Int,
      (create_icon envNoFont 48 "app/src/main/res/mipmap-mdpi/ic_launcher.png"
          emptyFS).1.files "app/src/main/res/mipmap-mdpi/ic_launcher.png" =
        some (FileData.png 48 48 "#1976D2" "HT" "white" x y
          (loadFont envNoFont 48))) :=
  ⟨rfl, rfl,
   (c7_font_fallback envNoFont 48
      "app/src/main/res/mipmap-mdpi/ic_launcher.png" emptyFS rfl).2.2.1 rfl rfl,
   (c7_font_fallback envNoFont 48
      "app/src/main/res/mipmap-mdpi/ic_launcher.png" emptyFS rfl).2.2.2⟩

/-- C8: when the drawing capability is unavailable at the time `create_icon`
is called, it emits the skip diagnostic and returns the filesystem completely
unchanged — no file written, no directory created. -/
theorem c8_skip_no_effect (env : Env) (size : Nat) (path : String) (fs : FS)
    (h : env.pilAvailable = false) :
    create_icon env size path fs =
      (fs, ["PIL not available, skipping " ++ path]) := by
  simp [create_icon, h]

theorem c8_skip_no_effect_witness :
    envNoPil.pilAvailable = false ∧
    create_icon envNoPil 48 "app/src/main/res/mipmap-mdpi/ic_launcher.png"
        emptyFS =
      (emptyFS,
       ["PIL not available, skipping " ++
          "app/src/main/res/mipmap-mdpi/ic_launcher.png"]) :=
  ⟨rfl, c8_skip_no_effect envNoPil 48
    "app/src/main/res/mipmap-mdpi/ic_launcher.png" emptyFS rfl⟩

/-- C9: running `main` twice in the degraded placeholder path is idempotent:
after the second run every one of the ten placeholder files has exactly the
same content as after the first run. -/
theorem c9_placeholder_idempotent (env : Env) (fs : FS)
    (h1 : env.pilAvailable = false) (h2 : env.installSucceeds = false) :
    ∀ p ∈ icons.map Prod.snd,
      (main_run env (main_run env fs).fs).fs.files p =
        (main_run env fs).fs.files p := by
  intro p hmem
  have e2 : (main_run env (main_run env fs).fs).fs =
      icons.foldl writePlaceholder ((main_run env fs).fs) := by
    rw [main_run_degraded env ((main_run env fs).fs) h1 h2]
  have e1 : (main_run env fs).fs = icons.foldl writePlaceholder fs := by
    rw [main_run_degraded env fs h1 h2]
  rw [e2, e1, foldl_wp_mem icons _ p hmem, foldl_wp_mem icons fs p hmem]

theorem c9_placeholder_idempotent_witness :
    (main_run envNoPil (main_run envNoPil emptyFS).fs).fs.files
        "app/src/main/res/mipmap-mdpi/ic_launcher.png" =
      (main_run envNoPil emptyFS).fs.files
        "app/src/main/res/mipmap-mdpi/ic_launcher.png" :=
  c9_placeholder_idempotent envNoPil emptyFS rfl rfl
    "app/src/main/res/mipmap-mdpi/ic_launcher.png" (by decide)

/-- C10: both output operations overwrite unconditionally: the content found
at the output path after `create_icon` (capability available) or after the
placeholder write is independent of whatever was previously stored at that
path, and the placeholder write always leaves exactly the placeholder
content. -/
theorem c10_unconditional_overwrite (env : Env) (size : Nat) (path : String)
    (h : env.pilAvailable = true) :
    (∀ fs₁ fs₂ : FS,
      (create_icon env size path fs₁).1.files path =
        (create_icon env size path fs₂).1.files path) ∧
    (∀ (fs₁ fs₂ : FS) (e : Nat × String),
      (writePlaceholder fs₁ e).files e.2 =
        (writePlaceholder fs₂ e).files e.2) ∧
    (∀ (fs : FS) (e : Nat × String),
      (writePlaceholder fs e).files e.2 =
        some (FileData.text placeholderContent)) := by
  refine ⟨fun fs₁ fs₂ => ?_, fun fs₁ fs₂ e => ?_, fun fs e => ?_⟩
  · rw [create_icon_avail env size path fs₁ h,
        create_icon_avail env size path fs₂ h, writeFile_self, writeFile_self]
  · rw [writePlaceholder_self, writePlaceholder_self]
  · exact writePlaceholder_self fs e

theorem c10_unconditional_overwrite_witness :
    envAvail.pilAvailable = true ∧
    (create_icon envAvail 48 "app/src/main/res/mipmap-mdpi/ic_launcher.png"
        fullFS).1.files "app/src/main/res/mipmap-mdpi/ic_launcher.png" =
      (create_icon envAvail 48 "app/src/main/res/mipmap-mdpi/ic_launcher.png"
        emptyFS).1.files "app/src/main/res/mipmap-mdpi/ic_launcher.png" :=
  ⟨rfl, (c10_unconditional_overwrite envAvail 48
    "app/src/main/res/mipmap-mdpi/ic_launcher.png" rfl).1 fullFS emptyFS⟩

end GenerateIcons
